import Mathlib

/-!
Verification of `SqliteTempPath` (src/sqlx-sqlite/src/options/temp.rs).

The handle is `Arc<OnceCell<tempfile::TempDir>>`.  We embed it shallowly:

* `FsState` models the filesystem visible to the component: the set of
  existing directories, the files inside them, the temp-directory provider's
  counter supplying the unique middle segment of generated names, an
  environment flag saying whether directory creation currently fails
  (permissions / disk pressure), and a log of every `(prefix, suffix)`
  request made to the provider (each logged request is one filesystem
  I/O performed by the component).
* The `OnceCell` is an `Option TempDir`; `get_or_try_init` is embedded
  faithfully: a populated cell returns its value without running the
  initializer, an empty cell runs it, stores the value on success and stays
  empty on failure (`once_cell` does not poison the cell on initializer
  error).
* `once_cell::sync::OnceCell::get_or_try_init` holds the cell's
  internal lock for the whole initialization, so concurrent calls on clones
  of one handle are observationally equivalent to some sequential order of
  the atomic calls; N concurrent calls are therefore modelled as N
  sequential calls (`runCalls`).
* The `Arc` is modelled by an owner count (`Family`); dropping the last
  owner drops the `OnceCell`, whose `TempDir` payload deletes the directory
  and all its contents (`tempfile::TempDir`'s drop semantics).
-/

/-- `std::io::Error`, identified by an abstract code. -/
structure IoError where
  code : Nat
deriving DecidableEq, Repr

/-- `tempfile::TempDir`: an owned temporary-directory resource.  Its
deletion-on-drop obligation is modelled by `releaseOwner` on the owning
`Family`. -/
structure TempDir where
  path : String
deriving DecidableEq, Repr

/-- Filesystem state, plus the temp-directory provider's name counter and a
log of the creation requests issued to it. -/
structure FsState where
  dirs : List String
  files : List (String × String)
  nextUnique : Nat
  failing : Bool
  requests : List (String × String)
deriving DecidableEq, Repr

/-- The prefix string passed to `tempfile::Builder` in
`force_create_blocking`. -/
def sqlitePfx : String := "sqlx-sqlite"

/-- The suffix string passed to `tempfile::Builder` in
`force_create_blocking`. -/
def sqliteSfx : String := ".db"

/-- `tempfile::Builder::new().prefix(pfx).suffix(sfx).tempdir()`: asks the
provider for a fresh directory.  The request is logged; when the
environment is not failing, a directory named from the prefix, the
provider-supplied unique segment and the suffix is created on disk. -/
def tempfile_tempdir (pfx sfx : String) (fs : FsState) :
    FsState × Except IoError TempDir :=
  if fs.failing then
    ({ fs with requests := fs.requests ++ [(pfx, sfx)] }, Except.error ⟨1⟩)
  else
    let p := pfx ++ toString fs.nextUnique ++ sfx
    ({ fs with dirs := fs.dirs ++ [p],
               nextUnique := fs.nextUnique + 1,
               requests := fs.requests ++ [(pfx, sfx)] },
     Except.ok ⟨p⟩)

/-- `OnceCell::get_or_try_init`: a populated cell short-circuits without
running the initializer; an empty cell runs it, is populated on success and
remains empty on failure. -/
def get_or_try_init (cell : Option TempDir) (fs : FsState)
    (f : FsState → FsState × Except IoError TempDir) :
    Option TempDir × FsState × Except IoError TempDir :=
  match cell with
  | some td => (some td, fs, Except.ok td)
  | none =>
    match f fs with
    | (fs1, Except.ok td) => (some td, fs1, Except.ok td)
    | (fs1, Except.error e) => (none, fs1, Except.error e)

/-- A `SqliteTempPath` handle together with the filesystem it acts on: the
shared cell behind the `Arc` and the `FsState`.  Clones of a handle share
the cell, hence act on the same `SysState`. -/
structure SysState where
  cell : Option TempDir
  fs : FsState
deriving DecidableEq, Repr

/-- `SqliteTempPath::lazy`: a fresh handle with an empty cell; the
filesystem is untouched. -/
def lazy (fs : FsState) : SysState :=
  { cell := none, fs := fs }

/-- `SqliteTempPath::from_tempdir`: a handle whose cell is already
populated (`OnceCell::with_value`); the filesystem is untouched. -/
def from_tempdir (td : TempDir) (fs : FsState) : SysState :=
  { cell := some td, fs := fs }

/-- Modelled from the spec: the exposed `path()` accessor (src contains
only its callers); it reads the materialized path from the cell, available
only once materialized. -/
def path_access (s : SysState) : Option String :=
  s.cell.map TempDir.path

/-- `SqliteTempPath::force_create_blocking`:
`self.inner.get_or_try_init(|| tempfile::Builder::new()
.prefix("sqlx-sqlite").suffix(".db").tempdir())`, returning the path of
the (now) stored `TempDir`. -/
def force_create_blocking (s : SysState) : SysState × Except IoError String :=
  match get_or_try_init s.cell s.fs (tempfile_tempdir sqlitePfx sqliteSfx) with
  | (c, fs1, r) => ({ cell := c, fs := fs1 }, r.map TempDir.path)

/-- `SqliteTempPath::force_create`: offloads `force_create_blocking` on a
clone (same cell) via `spawn_blocking`, discarding its path, propagates its
error with the `?`, then reads `self.inner.get()` back.  The
`expect("BUG: ...")` is embedded as the `Option String`: a `some` result is
the read path, a `none` result is the panic branch. -/
def force_create (s : SysState) : SysState × Except IoError (Option String) :=
  match force_create_blocking s with
  | (s1, Except.error e) => (s1, Except.error e)
  | (s1, Except.ok _) => (s1, Except.ok (s1.cell.map TempDir.path))

/-- `SqliteTempPath::create`: builds a lazy handle, immediately
materializes it with `force_create`, and returns the handle on success. -/
def create (fs : FsState) : FsState × Except IoError SysState :=
  match force_create (lazy fs) with
  | (s1, Except.error e) => (s1.fs, Except.error e)
  | (s1, Except.ok _) => (s1.fs, Except.ok s1)

/-- N concurrent `force_create_blocking` calls on clones of one handle,
modelled as N sequential atomic calls (see the header: `get_or_try_init`
holds the cell's lock for the whole initialization). -/
def runCalls : Nat → SysState → SysState × List (Except IoError String)
  | 0, s => (s, [])
  | n + 1, s =>
    match force_create_blocking s with
    | (s1, r) =>
      match runCalls n s1 with
      | (s2, rs) => (s2, r :: rs)

/-- `tempfile::TempDir`'s drop: removes the directory and everything
inside it. -/
def deleteDir (d : String) (fs : FsState) : FsState :=
  { fs with dirs := fs.dirs.filter (fun x => x ≠ d),
            files := fs.files.filter (fun f => f.1 ≠ d) }

/-- A handle family: the `Arc`'s strong count (live owners, the original
handle plus its clones) and the shared cell. -/
structure Family where
  owners : Nat
  cell : Option TempDir
deriving DecidableEq, Repr

/-- `Arc::drop` for one owner: decrements the strong count; the last owner
drops the `OnceCell`, whose `TempDir` (if populated) deletes its directory
and contents. -/
def releaseOwner (fam : Family) (fs : FsState) : Option Family × FsState :=
  if fam.owners ≤ 1 then
    (none,
     match fam.cell with
     | some td => deleteDir td.path fs
     | none => fs)
  else
    (some { fam with owners := fam.owners - 1 }, fs)

/-- Release `k` owners of a family, one after another. -/
def releaseK : Nat → Family → FsState → Option Family × FsState
  | 0, fam, fs => (some fam, fs)
  | k + 1, fam, fs =>
    match releaseOwner fam fs with
    | (some fam1, fs1) => releaseK k fam1 fs1
    | (none, fs1) => (none, fs1)

/-- A populated cell short-circuits: `force_create_blocking` returns the
stored path and leaves the whole state untouched. -/
theorem force_create_blocking_populated (s : SysState) (td : TempDir)
    (h : s.cell = some td) :
    force_create_blocking s = (s, Except.ok td.path) := by
  cases s
  simp_all [force_create_blocking, get_or_try_init, Except.map]

/-- On an empty cell with a healthy filesystem, `force_create_blocking`
creates exactly one directory, logs one provider request, and populates the
cell with the new path. -/
theorem force_create_blocking_empty_ok (s : SysState)
    (hc : s.cell = none) (hf : s.fs.failing = false) :
    force_create_blocking s =
      ({ cell := some ⟨sqlitePfx ++ toString s.fs.nextUnique ++ sqliteSfx⟩,
         fs := { s.fs with
                 dirs := s.fs.dirs ++ [sqlitePfx ++ toString s.fs.nextUnique ++ sqliteSfx],
                 nextUnique := s.fs.nextUnique + 1,
                 requests := s.fs.requests ++ [(sqlitePfx, sqliteSfx)] } },
       Except.ok (sqlitePfx ++ toString s.fs.nextUnique ++ sqliteSfx)) := by
  cases s
  simp_all [force_create_blocking, get_or_try_init, tempfile_tempdir, Except.map]

/-- On an empty cell with a failing filesystem, `force_create_blocking`
returns the provider's error, the cell stays empty, and only the request is
logged: nothing was created. -/
theorem force_create_blocking_empty_err (s : SysState)
    (hc : s.cell = none) (hf : s.fs.failing = true) :
    force_create_blocking s =
      ({ cell := none,
         fs := { s.fs with requests := s.fs.requests ++ [(sqlitePfx, sqliteSfx)] } },
       Except.error ⟨1⟩) := by
  cases s
  simp_all [force_create_blocking, get_or_try_init, tempfile_tempdir, Except.map]

/-- Whenever `force_create_blocking` succeeds with path `p`, the resulting
cell holds exactly the directory at `p`. -/
theorem force_create_blocking_ok_cell (s s1 : SysState) (p : String)
    (h : force_create_blocking s = (s1, Except.ok p)) :
    s1.cell = some ⟨p⟩ := by
  cases s with
  | mk cell fs =>
    cases cell with
    | some td =>
      cases td
      simp_all [force_create_blocking, get_or_try_init, Except.map]
      simp [← h.2, ← h.1]
    | none =>
      by_cases hf : fs.failing
      · simp_all [force_create_blocking, get_or_try_init, tempfile_tempdir, Except.map]
      · simp_all [force_create_blocking, get_or_try_init, tempfile_tempdir, Except.map]
        simp [← h.2, ← h.1]

/-- Any number of calls on an already-populated cell change nothing and all
return the stored path. -/
theorem runCalls_populated (n : Nat) (s : SysState) (td : TempDir)
    (h : s.cell = some td) :
    runCalls n s = (s, List.replicate n (Except.ok td.path)) := by
  induction n with
  | zero => simp [runCalls]
  | succ n ih =>
    simp [runCalls, force_create_blocking_populated s td h, ih, List.replicate]

/-- Releasing fewer owners than the family has leaves the filesystem
untouched and just decrements the count. -/
theorem releaseK_lt (k : Nat) :
    ∀ (fam : Family) (fs : FsState), k < fam.owners →
    releaseK k fam fs = (some ⟨fam.owners - k, fam.cell⟩, fs) := by
  induction k with
  | zero =>
    intro fam fs _
    cases fam
    simp [releaseK]
  | succ k ih =>
    intro fam fs h
    have h2 : ¬ fam.owners ≤ 1 := by omega
    simp only [releaseK, releaseOwner, if_neg h2]
    rw [ih { fam with owners := fam.owners - 1 } fs (by simp; omega)]
    have h3 : fam.owners - 1 - k = fam.owners - (k + 1) := by omega
    simp [h3]

/-- Releasing every owner of a family holding a materialized directory
deletes that directory (and only then). -/
theorem releaseK_all (n : Nat) :
    ∀ (fam : Family) (fs : FsState) (td : TempDir),
    fam.owners = n + 1 → fam.cell = some td →
    releaseK (n + 1) fam fs = (none, deleteDir td.path fs) := by
  induction n with
  | zero =>
    intro fam fs td ho hc
    simp only [releaseK, releaseOwner, if_pos (by omega : fam.owners ≤ 1), hc]
  | succ n ih =>
    intro fam fs td ho hc
    have h2 : ¬ fam.owners ≤ 1 := by omega
    simp only [releaseK, releaseOwner, if_neg h2]
    exact ih { fam with owners := fam.owners - 1 } fs td (by simp [ho]) hc

/-- N calls starting from an empty cell on a healthy filesystem: the first
populates the cell, the rest observe it; everyone gets the same path. -/
theorem runCalls_empty_ok (m : Nat) (s : SysState)
    (hc : s.cell = none) (hf : s.fs.failing = false) :
    runCalls (m + 1) s =
      ((force_create_blocking s).1,
       List.replicate (m + 1)
         (Except.ok (sqlitePfx ++ toString s.fs.nextUnique ++ sqliteSfx))) := by
  have hb := force_create_blocking_empty_ok s hc hf
  simp only [runCalls, hb]
  rw [runCalls_populated m _ ⟨sqlitePfx ++ toString s.fs.nextUnique ++ sqliteSfx⟩ rfl]
  simp [hb, List.replicate]

/-- `deleteDir` removes the directory and all files inside it. -/
theorem deleteDir_clears (d : String) (fs : FsState) :
    d ∉ (deleteDir d fs).dirs ∧ ∀ f ∈ (deleteDir d fs).files, f.1 ≠ d := by
  constructor
  · simp [deleteDir, List.mem_filter]
  · intro f hf
    simp [deleteDir, List.mem_filter] at hf
    exact hf.2

/-- C1: for every N >= 1 concurrent `force_create`/`force_create_blocking`
calls on clones of one lazy handle (modelled, by the atomicity of
`get_or_try_init`, as N sequential atomic calls on the shared state),
exactly one call physically creates a directory on disk, all N calls
complete successfully with the identical resulting path, and that path is a
fully created directory — no call observes a partial one. -/
theorem c1_exactly_once_creation (n : Nat) (fs : FsState)
    (hn : 1 ≤ n) (hf : fs.failing = false) :
    ∃ p,
      (∀ r ∈ (runCalls n (lazy fs)).2, r = Except.ok p) ∧
      (runCalls n (lazy fs)).1.fs.dirs = fs.dirs ++ [p] ∧
      p ∈ (runCalls n (lazy fs)).1.fs.dirs ∧
      (runCalls n (lazy fs)).2.length = n := by
  obtain ⟨m, rfl⟩ : ∃ m, n = m + 1 := ⟨n - 1, by omega⟩
  have hr := runCalls_empty_ok m (lazy fs) rfl hf
  have hb := force_create_blocking_empty_ok (lazy fs) rfl hf
  refine ⟨sqlitePfx ++ toString fs.nextUnique ++ sqliteSfx, ?_, ?_, ?_, ?_⟩
  · intro r hrr
    rw [hr] at hrr
    exact List.eq_of_mem_replicate hrr
  · rw [hr, hb]; simp [lazy]
  · rw [hr, hb]; simp [lazy]
  · rw [hr]; simp

/-- Witness for C1 at N = 3 on an empty filesystem. -/
theorem c1_exactly_once_creation_witness :
    1 ≤ 3 ∧
    ∃ p,
      (∀ r ∈ (runCalls 3 (lazy ⟨[], [], 0, false, []⟩)).2, r = Except.ok p) ∧
      (runCalls 3 (lazy ⟨[], [], 0, false, []⟩)).1.fs.dirs = [] ++ [p] ∧
      p ∈ (runCalls 3 (lazy ⟨[], [], 0, false, []⟩)).1.fs.dirs ∧
      (runCalls 3 (lazy ⟨[], [], 0, false, []⟩)).2.length = 3 :=
  ⟨by decide, c1_exactly_once_creation 3 ⟨[], [], 0, false, []⟩ (by decide) rfl⟩

/-- C2: with N+1 owners sharing one cell holding a materialized directory,
releasing any proper subset of the owners leaves the filesystem untouched;
releasing all of them deletes the directory and its entire contents,
exactly at the final release. -/
theorem c2_cleanup_on_last_release (fam : Family) (fs : FsState)
    (td : TempDir) (n : Nat)
    (ho : fam.owners = n + 1) (hc : fam.cell = some td) :
    (∀ k, k < n + 1 → releaseK k fam fs = (some ⟨n + 1 - k, some td⟩, fs)) ∧
    releaseK (n + 1) fam fs = (none, deleteDir td.path fs) ∧
    td.path ∉ (releaseK (n + 1) fam fs).2.dirs ∧
    ∀ f ∈ (releaseK (n + 1) fam fs).2.files, f.1 ≠ td.path := by
  have hall := releaseK_all n fam fs td ho hc
  refine ⟨?_, hall, ?_, ?_⟩
  · intro k hk
    rw [releaseK_lt k fam fs (by omega), ho, hc]
  · rw [hall]
    exact (deleteDir_clears td.path fs).1
  · rw [hall]
    exact (deleteDir_clears td.path fs).2

/-- Witness for C2: three owners of directory d over a filesystem holding d
and one file inside it. -/
theorem c2_cleanup_on_last_release_witness :
    (∀ k, k < 3 →
      releaseK k ⟨3, some ⟨"d"⟩⟩ ⟨["d"], [("d", "f")], 5, false, []⟩ =
        (some ⟨3 - k, some ⟨"d"⟩⟩, ⟨["d"], [("d", "f")], 5, false, []⟩)) ∧
    releaseK 3 ⟨3, some ⟨"d"⟩⟩ ⟨["d"], [("d", "f")], 5, false, []⟩ =
      (none, deleteDir "d" ⟨["d"], [("d", "f")], 5, false, []⟩) ∧
    "d" ∉ (releaseK 3 ⟨3, some ⟨"d"⟩⟩ ⟨["d"], [("d", "f")], 5, false, []⟩).2.dirs ∧
    ∀ f ∈ (releaseK 3 ⟨3, some ⟨"d"⟩⟩ ⟨["d"], [("d", "f")], 5, false, []⟩).2.files,
      f.1 ≠ "d" :=
  c2_cleanup_on_last_release ⟨3, some ⟨"d"⟩⟩ ⟨["d"], [("d", "f")], 5, false, []⟩ ⟨"d"⟩ 2 rfl rfl

/-- C3: `force_create` is exactly the offload of `force_create_blocking`
on the shared cell followed by reading the populated cell back: it yields
the same final state, and its result is the blocking call's result (the
same path on success, the same `IoError` on failure). -/
theorem c3_force_create_refinement (s : SysState) :
    (force_create s).1 = (force_create_blocking s).1 ∧
    (force_create s).2 = (force_create_blocking s).2.map (fun p => some p) := by
  rcases hb : force_create_blocking s with ⟨s1, r⟩
  cases r with
  | error e => simp [force_create, hb, Except.map]
  | ok p =>
    have hc := force_create_blocking_ok_cell s s1 p hb
    simp [force_create, hb, hc, Except.map]

/-- C4: a failed creation leaves the cell empty (not poisoned): the call
reports the `IoError`, and a later call on the same cell, once the
filesystem recovers, succeeds, populates the cell, and yields a directory
that now exists on disk. -/
theorem c4_failure_retry (fs fs2 : FsState)
    (hf : fs.failing = true) (hf2 : fs2.failing = false) :
    (force_create_blocking (lazy fs)).2 = Except.error ⟨1⟩ ∧
    (force_create_blocking (lazy fs)).1.cell = none ∧
    ∃ p,
      (force_create_blocking ⟨(force_create_blocking (lazy fs)).1.cell, fs2⟩).2 =
        Except.ok p ∧
      (force_create_blocking ⟨(force_create_blocking (lazy fs)).1.cell, fs2⟩).1.cell =
        some ⟨p⟩ ∧
      p ∈ (force_create_blocking ⟨(force_create_blocking (lazy fs)).1.cell, fs2⟩).1.fs.dirs := by
  have h1 := force_create_blocking_empty_err (lazy fs) rfl hf
  have hcell : (force_create_blocking (lazy fs)).1.cell = none := by rw [h1]
  refine ⟨by rw [h1], hcell, ?_⟩
  have h2 := force_create_blocking_empty_ok
    ⟨(force_create_blocking (lazy fs)).1.cell, fs2⟩ hcell hf2
  refine ⟨sqlitePfx ++ toString fs2.nextUnique ++ sqliteSfx, ?_, ?_, ?_⟩
  · rw [h2]
  · rw [h2]
  · rw [h2]; simp

/-- Witness for C4: a failing filesystem, then a healthy one. -/
theorem c4_failure_retry_witness :
    (force_create_blocking (lazy ⟨[], [], 0, true, []⟩)).2 = Except.error ⟨1⟩ ∧
    (force_create_blocking (lazy ⟨[], [], 0, true, []⟩)).1.cell = none ∧
    ∃ p,
      (force_create_blocking
        ⟨(force_create_blocking (lazy ⟨[], [], 0, true, []⟩)).1.cell,
         ⟨[], [], 7, false, []⟩⟩).2 = Except.ok p ∧
      (force_create_blocking
        ⟨(force_create_blocking (lazy ⟨[], [], 0, true, []⟩)).1.cell,
         ⟨[], [], 7, false, []⟩⟩).1.cell = some ⟨p⟩ ∧
      p ∈ (force_create_blocking
        ⟨(force_create_blocking (lazy ⟨[], [], 0, true, []⟩)).1.cell,
         ⟨[], [], 7, false, []⟩⟩).1.fs.dirs :=
  c4_failure_retry ⟨[], [], 0, true, []⟩ ⟨[], [], 7, false, []⟩ rfl rfl

/-- C5: calling `force_create_blocking` twice sequentially returns the same
path both times; the first call performs exactly one creation (one provider
request, one new directory) and the second call changes nothing: no
filesystem I/O at all. -/
theorem c5_idempotent_reaccess (fs : FsState) (hf : fs.failing = false) :
    ∃ p,
      (force_create_blocking (lazy fs)).2 = Except.ok p ∧
      (force_create_blocking (force_create_blocking (lazy fs)).1).2 = Except.ok p ∧
      (force_create_blocking (force_create_blocking (lazy fs)).1).1 =
        (force_create_blocking (lazy fs)).1 ∧
      (force_create_blocking (lazy fs)).1.fs.dirs = fs.dirs ++ [p] ∧
      (force_create_blocking (lazy fs)).1.fs.requests =
        fs.requests ++ [(sqlitePfx, sqliteSfx)] := by
  have hb := force_create_blocking_empty_ok (lazy fs) rfl hf
  have hcell2 : (force_create_blocking (lazy fs)).1.cell =
      some ⟨sqlitePfx ++ toString fs.nextUnique ++ sqliteSfx⟩ := by
    rw [hb]; simp [lazy]
  have h2 := force_create_blocking_populated (force_create_blocking (lazy fs)).1
    ⟨sqlitePfx ++ toString fs.nextUnique ++ sqliteSfx⟩ hcell2
  refine ⟨sqlitePfx ++ toString fs.nextUnique ++ sqliteSfx, ?_, ?_, ?_, ?_, ?_⟩
  · rw [hb]; simp [lazy]
  · rw [h2]
  · rw [h2]
  · rw [hb]; simp [lazy]
  · rw [hb]; simp [lazy]

/-- Witness for C5 on an empty filesystem. -/
theorem c5_idempotent_reaccess_witness :
    ∃ p,
      (force_create_blocking (lazy ⟨[], [], 0, false, []⟩)).2 = Except.ok p ∧
      (force_create_blocking
        (force_create_blocking (lazy ⟨[], [], 0, false, []⟩)).1).2 = Except.ok p ∧
      (force_create_blocking
        (force_create_blocking (lazy ⟨[], [], 0, false, []⟩)).1).1 =
        (force_create_blocking (lazy ⟨[], [], 0, false, []⟩)).1 ∧
      (force_create_blocking (lazy ⟨[], [], 0, false, []⟩)).1.fs.dirs = [] ++ [p] ∧
      (force_create_blocking (lazy ⟨[], [], 0, false, []⟩)).1.fs.requests =
        [] ++ [(sqlitePfx, sqliteSfx)] :=
  c5_idempotent_reaccess ⟨[], [], 0, false, []⟩ rfl

/-- C6: whenever the offloaded blocking call inside `force_create`
succeeds, the shared cell is populated, so the read of `self.inner.get()`
guarded by `expect` never takes the panic branch (`none`). -/
theorem c6_no_panic_after_success (s : SysState) (x : Option String)
    (h : (force_create s).2 = Except.ok x) : x.isSome = true := by
  rcases hb : force_create_blocking s with ⟨s1, r⟩
  cases r with
  | error e => simp [force_create, hb] at h
  | ok p =>
    have hc := force_create_blocking_ok_cell s s1 p hb
    simp [force_create, hb, hc] at h
    simp [← h]

/-- Witness for C6 on an empty filesystem. -/
theorem c6_no_panic_after_success_witness :
    (force_create (lazy ⟨[], [], 0, false, []⟩)).2 =
      Except.ok (some (sqlitePfx ++ toString 0 ++ sqliteSfx)) ∧
    (some (sqlitePfx ++ toString 0 ++ sqliteSfx)).isSome = true :=
  ⟨by rfl,
   c6_no_panic_after_success (lazy ⟨[], [], 0, false, []⟩)
     (some (sqlitePfx ++ toString 0 ++ sqliteSfx)) (by rfl)⟩

/-- Clean form of the first-creation step on a lazy handle. -/
theorem force_create_blocking_lazy_ok (fs : FsState) (hf : fs.failing = false) :
    force_create_blocking (lazy fs) =
      ({ cell := some ⟨sqlitePfx ++ toString fs.nextUnique ++ sqliteSfx⟩,
         fs := { dirs := fs.dirs ++ [sqlitePfx ++ toString fs.nextUnique ++ sqliteSfx],
                 files := fs.files,
                 nextUnique := fs.nextUnique + 1,
                 failing := fs.failing,
                 requests := fs.requests ++ [(sqlitePfx, sqliteSfx)] } },
       Except.ok (sqlitePfx ++ toString fs.nextUnique ++ sqliteSfx)) := by
  have h := force_create_blocking_empty_ok (lazy fs) rfl hf
  simpa [lazy] using h

/-- C7: `create` constructs a lazy handle and immediately runs
`force_create` on it; on a healthy filesystem it returns a handle whose
cell is populated and whose directory already exists on disk, and on a
failing filesystem it fails with exactly the `IoError` produced by the
directory creation. -/
theorem c7_create_spec (fs fsF : FsState)
    (hf : fs.failing = false) (hfF : fsF.failing = true) :
    create fs =
      ((force_create (lazy fs)).1.fs,
       ((force_create (lazy fs)).2).map (fun _ => (force_create (lazy fs)).1)) ∧
    (∃ s td, (create fs).2 = Except.ok s ∧ s.cell = some td ∧
      td.path ∈ s.fs.dirs ∧ (create fs).1 = s.fs) ∧
    create fsF = ((force_create (lazy fsF)).1.fs, Except.error ⟨1⟩) ∧
    (force_create_blocking (lazy fsF)).2 = Except.error ⟨1⟩ := by
  have hb1 := force_create_blocking_lazy_ok fs hf
  have hfc : force_create (lazy fs) =
      ({ cell := some ⟨sqlitePfx ++ toString fs.nextUnique ++ sqliteSfx⟩,
         fs := { dirs := fs.dirs ++ [sqlitePfx ++ toString fs.nextUnique ++ sqliteSfx],
                 files := fs.files,
                 nextUnique := fs.nextUnique + 1,
                 failing := fs.failing,
                 requests := fs.requests ++ [(sqlitePfx, sqliteSfx)] } },
       Except.ok (some (sqlitePfx ++ toString fs.nextUnique ++ sqliteSfx))) := by
    simp [force_create, hb1]
  have hbF := force_create_blocking_empty_err (lazy fsF) rfl hfF
  have hfcF : force_create (lazy fsF) =
      ((force_create_blocking (lazy fsF)).1, Except.error ⟨1⟩) := by
    simp [force_create, hbF]
  refine ⟨?_, ?_, ?_, ?_⟩
  · rcases hb : force_create (lazy fs) with ⟨s1, r⟩
    cases r with
    | error e => simp [create, hb, Except.map]
    | ok v => simp [create, hb, Except.map]
  · refine ⟨{ cell := some ⟨sqlitePfx ++ toString fs.nextUnique ++ sqliteSfx⟩,
              fs := { dirs := fs.dirs ++ [sqlitePfx ++ toString fs.nextUnique ++ sqliteSfx],
                      files := fs.files,
                      nextUnique := fs.nextUnique + 1,
                      failing := fs.failing,
                      requests := fs.requests ++ [(sqlitePfx, sqliteSfx)] } },
            ⟨sqlitePfx ++ toString fs.nextUnique ++ sqliteSfx⟩, ?_, rfl, ?_, ?_⟩
    · simp [create, hfc]
    · simp
    · simp [create, hfc]
  · simp [create, hfcF]
  · rw [hbF]

/-- Witness for C7 with a healthy and a failing filesystem. -/
theorem c7_create_spec_witness :
    create ⟨[], [], 0, false, []⟩ =
      ((force_create (lazy ⟨[], [], 0, false, []⟩)).1.fs,
       ((force_create (lazy ⟨[], [], 0, false, []⟩)).2).map
         (fun _ => (force_create (lazy ⟨[], [], 0, false, []⟩)).1)) ∧
    (∃ s td, (create ⟨[], [], 0, false, []⟩).2 = Except.ok s ∧ s.cell = some td ∧
      td.path ∈ s.fs.dirs ∧ (create ⟨[], [], 0, false, []⟩).1 = s.fs) ∧
    create ⟨[], [], 0, true, []⟩ =
      ((force_create (lazy ⟨[], [], 0, true, []⟩)).1.fs, Except.error ⟨1⟩) ∧
    (force_create_blocking (lazy ⟨[], [], 0, true, []⟩)).2 = Except.error ⟨1⟩ :=
  c7_create_spec ⟨[], [], 0, false, []⟩ ⟨[], [], 0, true, []⟩ rfl rfl

/-- C8: `from_tempdir` performs no filesystem I/O and never fails: the
filesystem (including the provider request log) is untouched, the cell
starts populated with the adopted resource, a path access returns the
resource's original path, and a later `force_create_blocking` returns that
same path while changing nothing at all. -/
theorem c8_from_tempdir_adoption (td : TempDir) (fs : FsState) :
    (from_tempdir td fs).fs = fs ∧
    (from_tempdir td fs).cell = some td ∧
    path_access (from_tempdir td fs) = some td.path ∧
    force_create_blocking (from_tempdir td fs) =
      (from_tempdir td fs, Except.ok td.path) :=
  ⟨rfl, rfl, rfl, force_create_blocking_populated _ td rfl⟩

/-- C9: `lazy` performs no filesystem I/O and never fails: the filesystem
(directories, files and the provider request log alike) is untouched, the
cell is empty, and no path is available yet. -/
theorem c9_lazy_no_io (fs : FsState) :
    (lazy fs).fs = fs ∧ (lazy fs).cell = none ∧ path_access (lazy fs) = none :=
  ⟨rfl, rfl, rfl⟩

/-- C10: every creation performed by `force_create_blocking` is requested
from the temp-directory provider with the fixed prefix identifying the
owning system and the fixed database-extension suffix; the created
directory's name is that prefix, then the provider-supplied unique
segment, then that suffix. -/
theorem c10_naming_convention (s : SysState) (hc : s.cell = none) :
    (force_create_blocking s).1.fs.requests =
      s.fs.requests ++ [(sqlitePfx, sqliteSfx)] ∧
    sqlitePfx = "sqlx-sqlite" ∧
    sqliteSfx = ".db" ∧
    (s.fs.failing = false →
      (force_create_blocking s).1.fs.dirs =
        s.fs.dirs ++ [sqlitePfx ++ toString s.fs.nextUnique ++ sqliteSfx]) := by
  refine ⟨?_, rfl, rfl, ?_⟩
  · cases hf : s.fs.failing with
    | true => rw [force_create_blocking_empty_err s hc hf]
    | false => rw [force_create_blocking_empty_ok s hc hf]
  · intro hf
    rw [force_create_blocking_empty_ok s hc hf]

/-- Witness for C10 on an empty filesystem with provider counter 4. -/
theorem c10_naming_convention_witness :
    (force_create_blocking ⟨none, ⟨[], [], 4, false, []⟩⟩).1.fs.requests =
      [] ++ [(sqlitePfx, sqliteSfx)] ∧
    sqlitePfx = "sqlx-sqlite" ∧
    sqliteSfx = ".db" ∧
    (force_create_blocking ⟨none, ⟨[], [], 4, false, []⟩⟩).1.fs.dirs =
      [] ++ [sqlitePfx ++ toString 4 ++ sqliteSfx] :=
  ⟨(c10_naming_convention ⟨none, ⟨[], [], 4, false, []⟩⟩ rfl).1,
   (c10_naming_convention ⟨none, ⟨[], [], 4, false, []⟩⟩ rfl).2.1,
   (c10_naming_convention ⟨none, ⟨[], [], 4, false, []⟩⟩ rfl).2.2.1,
   (c10_naming_convention ⟨none, ⟨[], [], 4, false, []⟩⟩ rfl).2.2.2 rfl⟩
